import Mathlib

/-!
Verification of pcc-check-reservations.py (PRAGMA cloud scheduler).

The script is a polling control loop that starts, monitors and tears down
virtual-cluster reservations booked in a calendar service.  The embedding
below translates the functions the claims are about:

* isDagRunning   (readiness detector),
* stopDagPB      (teardown executor) and the Running-and-expired dispatch branch,
* startDagPB     (provisioning launcher, per-resource command construction),
* updateStatus   (store client status update),
* the deduplication loop over store-returned reservation entries.

Files are modelled by their observable content: for every regular expression
the source searches in a file, the model carries the captured group of that
search as an Option String (none when the search finds no match, mirroring
getRegexFromFile returning the empty list).  Remote commands are modelled by
the exit status the script observes.  Python exceptions are modelled by an
explicit error monad: a raised-and-unhandled exception aborts the run.
-/

/-- The Python exceptions the modelled code can raise: IOError from opening a
missing file, TypeError from int applied to the empty list that
getRegexFromFile returns on no match, AttributeError from calling split on
that empty list, ValueError from int applied to a non-numeric string,
KeyError from a missing dict key, and SystemExit from sys.exit. -/
inductive PyErr where
  | ioError
  | typeError
  | attributeError
  | valueError
  | keyError
  | systemExit (code : Nat)
  deriving DecidableEq, Repr

/-- Python truthiness of a getRegexFromFile result: the empty list (no match)
and the empty string are falsy, any other string is truthy. -/
def pyTruthy : Option String → Bool
  | none => false
  | some s => s ≠ ""

/-- Python len of a getRegexFromFile result: 0 for the empty list (no match),
else the length of the captured string. -/
def pyLen : Option String → Nat
  | none => 0
  | some s => s.length

/-- Drops leading whitespace characters. -/
def dropWsL : List Char → List Char
  | [] => []
  | c :: cs => if c.isWhitespace then dropWsL cs else c :: cs

/-- Drops leading and trailing whitespace characters. -/
def trimL (cs : List Char) : List Char :=
  (dropWsL (dropWsL cs).reverse).reverse

/-- Folds decimal digits into a number; none on any non-digit character. -/
def digitsToNatAux : List Char → Nat → Option Nat
  | [], acc => some acc
  | c :: cs, acc =>
    if c.isDigit then digitsToNatAux cs (10 * acc + (c.toNat - 48)) else none

/-- The number denoted by a nonempty all-digit character list, none
otherwise. -/
def decNat? : List Char → Option Nat
  | [] => none
  | c :: cs => digitsToNatAux (c :: cs) 0

/-- Models Python int() applied to a string: optional surrounding
whitespace, an optional sign, then decimal digits; anything else raises
ValueError, modelled as none. -/
def pyIntParse (s : String) : Option Int :=
  match trimL s.data with
  | '-' :: cs => (decNat? cs).map (fun n => -(n : Int))
  | '+' :: cs => (decNat? cs).map (fun n => (n : Int))
  | cs => (decNat? cs).map (fun n => (n : Int))

/-- Python int applied to a getRegexFromFile result: int of the empty list
raises TypeError, int of a non-numeric string raises ValueError, otherwise
the parsed integer. -/
def pyIntOfRegex : Option String → Except PyErr Int
  | none => .error .typeError
  | some s =>
    match pyIntParse s with
    | some n => .ok n
    | none => .error .valueError

/-- Whether the first character list begins with the second. -/
def startsWithL : List Char → List Char → Bool
  | _, [] => true
  | [], _ :: _ => false
  | c :: cs, d :: ds => c = d && startsWithL cs ds

/-- Fuel-driven scan implementing str.split with an explicit nonempty
separator: left to right, non-overlapping.  The fuel exceeds the length of
the text at every call site below, so the fuel-exhausted branch is never
taken there. -/
def splitOnFuel (sep : List Char) : Nat → List Char → List Char → List (List Char)
  | 0, l, cur => [cur.reverse ++ l]
  | _ + 1, [], cur => [cur.reverse]
  | fuel + 1, c :: cs, cur =>
    if startsWithL (c :: cs) sep then
      cur.reverse :: splitOnFuel sep fuel (List.drop sep.length (c :: cs)) []
    else
      splitOnFuel sep fuel cs (c :: cur)

/-- Models Python str.split(sep) for a nonempty separator: the empty string
yields one empty piece, adjacent separators yield empty pieces. -/
def pySplit (s sep : String) : List String :=
  (splitOnFuel sep.data (s.data.length + 1) s.data []).map String.mk

/-- Splits a character list at every whitespace character. -/
def splitWsCharsAux : List Char → List Char → List (List Char)
  | [], cur => [cur.reverse]
  | c :: cs, cur =>
    if c.isWhitespace then cur.reverse :: splitWsCharsAux cs []
    else splitWsCharsAux cs (c :: cur)

/-- Models re.split on one-or-more whitespace, as the cached branch of
isDagRunning applies it to the cnodes field: maximal whitespace runs separate
the pieces; a leading or trailing run contributes one empty piece; the empty
string yields one empty piece. -/
def reSplitWs (s : String) : List String :=
  match s.data with
  | [] => [""]
  | c :: cs =>
    let toks := (splitWsCharsAux (c :: cs) []).filter (fun t => t ≠ [])
    let toks := if c.isWhitespace then [] :: toks else toks
    let toks := if ((c :: cs).getLastD c).isWhitespace then toks ++ [[]] else toks
    toks.map String.mk

/-- The observable content of a pragma_boot log file: for each regular
expression the source searches in it, the captured group when the search
succeeds, none when it does not.  The markers are, in source order:
fqdn=, the found-available-public-IP line, numcpus=, the Requesting-N-CPUs
line, cnodes=, the allocated-cluster-with-compute-nodes line, and the
Allocated-cluster name. -/
structure PragmaBootLog where
  fqdnMarker : Option String
  publicIPMarker : Option String
  numcpusMarker : Option String
  requestingMarker : Option String
  cnodesMarker : Option String
  allocatedNodesMarker : Option String
  allocatedMarker : Option String
  deriving DecidableEq, Repr

/-- The observable content of a per-resource cluster_info cache file:
the captured groups of the fqdn= and cnodes= searches (regex group (.*),
which can capture the empty string). -/
structure ClusterInfoFile where
  fqdnField : Option String
  cnodesField : Option String
  deriving DecidableEq, Repr

/-- The state of one resource sub-directory (vc<id>/) as isDagRunning reads
it, plus the exit statuses of the two liveness probes the script can run.
hostname, username, var_run and pragma_boot_version are read from files the
descriptor generator and launcher always write; clusterInfo is the cached
cluster_info file (none when the file does not exist); log is the content of
the local pragma_boot.log after the scp attempt (none when the file does not
exist, in which case opening it raises IOError).  pragmaListExit and pingExit
are the exit statuses observed for the remote pragma-list-cluster probe and
the local ping probe. -/
structure VcResource where
  hostname : String
  username : String
  var_run : String
  pragma_boot_version : String
  clusterInfo : Option ClusterInfoFile
  log : Option PragmaBootLog
  pragmaListExit : Int
  pingExit : Int
  deriving DecidableEq, Repr

/-- Outcome of processing one dag.sub resource line inside isDagRunning:
noFqdn models the early return False when no address can be extracted,
skipped models the continue statement that bypasses the liveness probe, and
probed records whether the probe classified the cluster as active together
with the resourceinfo text appended and the frontend fqdn assigned. -/
inductive StepOutcome where
  | noFqdn
  | skipped
  | probed (active : Bool) (info : String) (fqdn : String)
  deriving DecidableEq, Repr

/-- The externally visible file-system effects of processing one resource:
whether the scp fetch of the remote log was issued, and the (fqdn, cnodes)
content written to cluster_info when writeStringToFile runs. -/
structure StepEffects where
  scpIssued : Bool
  clusterInfoWrite : Option (String × String)
  deriving DecidableEq, Repr

/-- The numcpus extraction of isDagRunning: int of the numcpus= capture and,
when that raises, int of the Requesting-N-CPUs capture; an exception from the
fallback is unhandled. -/
def numcpusResult (log : PragmaBootLog) : Except PyErr Int :=
  match pyIntOfRegex log.numcpusMarker with
  | .ok n => .ok n
  | .error _ => pyIntOfRegex log.requestingMarker

/-- The cnodes extraction of isDagRunning: the cnodes= capture split on
newlines and, when the capture is the empty list (so split raises
AttributeError), the allocated-nodes capture split on comma-space; when that
is also the empty list the AttributeError from its split is unhandled. -/
def cnodesResult (log : PragmaBootLog) : Except PyErr (String × List String) :=
  match log.cnodesMarker with
  | some s => .ok (s, pySplit s "\n")
  | none =>
    match log.allocatedNodesMarker with
    | some s => .ok (s, pySplit s ", ")
    | none => .error .attributeError

/-- The liveness-probe tail of the per-resource body of isDagRunning.  It
receives the extracted frontend fqdn and the length of the accumulated nodes
list and first forms the resourceinfo contribution.  For pragma_boot version
2 the script re-opens the local pragma_boot.log to read the allocated cluster
name (IOError when the file does not exist) and runs the remote
pragma-list-cluster command, classifying by its exit status; for any other
version it pings the fqdn and classifies by the ping exit status.  The probe
command text itself is effect-only and not retained. -/
def probePart (r : VcResource) (cluster_fqdn : String) (nodesCount : Nat) :
    Except PyErr StepOutcome :=
  let info := "\n\nFrontend: " ++ cluster_fqdn ++ "\nNumber of compute nodes: "
    ++ toString (nodesCount - 1)
  if r.pragma_boot_version = "2" then
    match r.log with
    | none => .error .ioError
    | some _ => .ok (.probed (r.pragmaListExit = 0) info cluster_fqdn)
  else
    .ok (.probed (r.pingExit = 0) info cluster_fqdn)

/-- One iteration of the dag.sub loop of isDagRunning, for one resource.
When cluster_info does not exist the script issues the scp fetch, extracts
the address (fqdn= marker, else the public-IP line, else return False),
extracts numcpus (TypeError or ValueError from both attempts is unhandled),
and for positive numcpus extracts the compute-node list (AttributeError when
both searches fail is unhandled); if the node-list text is falsy the resource
is skipped by continue, otherwise cluster_info is written and the liveness
probe runs.  When cluster_info exists it is read back instead (AttributeError
when its fqdn= search fails, since the empty list has no split) and no scp
and no cluster_info write happen. -/
def resourceStep (r : VcResource) : Except PyErr StepOutcome × StepEffects :=
  match r.clusterInfo with
  | none =>
    match r.log with
    | none => (.error .ioError, ⟨true, none⟩)
    | some log =>
      let fqdnRes := if pyTruthy log.fqdnMarker then log.fqdnMarker else log.publicIPMarker
      if pyTruthy fqdnRes then
        let cluster_fqdn := fqdnRes.getD ""
        match numcpusResult log with
        | .error e => (.error e, ⟨true, none⟩)
        | .ok numcpus =>
          if 0 < numcpus then
            match cnodesResult log with
            | .error e => (.error e, ⟨true, none⟩)
            | .ok (cn, arr) =>
              if cn = "" then (.ok .skipped, ⟨true, none⟩)
              else
                (probePart r cluster_fqdn (1 + arr.length),
                 ⟨true, some (cluster_fqdn, String.intercalate " " arr)⟩)
          else
            (probePart r cluster_fqdn 1, ⟨true, some (cluster_fqdn, "")⟩)
      else
        (.ok .noFqdn, ⟨true, none⟩)
  | some ci =>
    match ci.fqdnField with
    | none => (.error .attributeError, ⟨false, none⟩)
    | some cluster_fqdn =>
      let nodesCount := 1 + (match ci.cnodesField with
        | some cn => if 0 < cn.length then (reSplitWs cn).length else 0
        | none => 0)
      (probePart r cluster_fqdn nodesCount, ⟨false, none⟩)

/-- Applies the file-system effects of one resourceStep invocation to the
resource state: a cluster_info write creates the cache file, whose fqdn= and
cnodes= searches then capture exactly the two written strings. -/
def applyStepEffects (r : VcResource) : VcResource :=
  match (resourceStep r).2.clusterInfoWrite with
  | some fc => { r with clusterInfo := some ⟨some fc.1, some fc.2⟩ }
  | none => r

/-- The loop accumulator of isDagRunning: the lengths of the active and
inactive lists, the accumulated resourceinfo text and the last assigned
frontend fqdn. -/
structure LoopAcc where
  activeCount : Nat
  inactiveCount : Nat
  resourceinfo : String
  frontendFqdn : String
  deriving DecidableEq, Repr

/-- The dag.sub loop of isDagRunning: ok none models the early return False
on a missing address, error models an unhandled exception, ok (some acc) is
the accumulator after all resource lines were processed. -/
def dagLoop : List VcResource → LoopAcc → Except PyErr (Option LoopAcc)
  | [], acc => .ok (some acc)
  | r :: rest, acc =>
    match (resourceStep r).1 with
    | .error e => .error e
    | .ok .noFqdn => .ok none
    | .ok .skipped => dagLoop rest acc
    | .ok (.probed b info fqdn) =>
      dagLoop rest
        { activeCount := acc.activeCount + (if b then 1 else 0)
          inactiveCount := acc.inactiveCount + (if b then 0 else 1)
          resourceinfo := acc.resourceinfo ++ info
          frontendFqdn := fqdn }

/-- The EMAIL_STARTED_TEMPLATE text with date, resourceinfo and fqdn
substituted, the value isDagRunning returns when the reservation is ready. -/
def startedEmail (date resourceinfo fqdn : String) : String :=
  "----- PRAGMA Cloud Scheduler Update @ " ++ date ++ " -----\n\n"
    ++ "Your resource reservation has been activated: " ++ resourceinfo
    ++ "\n\nTo access resources, login to the frontend.  E.g.,\n\n> ssh root@"
    ++ fqdn ++ "\n\n"

/-- isDagRunning over the resources listed in dag.sub.  now is the timestamp
interpolated into the started message.  ok (some text) models returning the
started summary (ready), ok none models returning False or None (pending),
error models an unhandled exception aborting the run.  The final result is
ready exactly when the loop ran to completion and the inactive list is
empty. -/
def isDagRunning (now : String) (rs : List VcResource) : Except PyErr (Option String) :=
  match dagLoop rs ⟨0, 0, "", ""⟩ with
  | .error e => .error e
  | .ok none => .ok none
  | .ok (some acc) =>
    if acc.inactiveCount = 0 then
      .ok (some (startedEmail now acc.resourceinfo acc.frontendFqdn))
    else
      .ok none

/-- The state of one resource as stopDagPB reads it: hostname and username
come from the per-resource vc<id>.sub descriptor file; vcLog is the content
of the pragma_boot.log in the resource sub-directory (which stopDagPB never
opens); shutdownExit and cleanExit are the exit statuses of the remote
pragma shutdown and pragma clean commands. -/
structure StopResource where
  hostname : String
  username : String
  vcLog : Option PragmaBootLog
  shutdownExit : Int
  cleanExit : Int
  deriving DecidableEq, Repr

/-- The reservation-level state stopDagPB operates on: the content of the
pragma_boot.log at the top level of the dag directory (the file
dagDir/pragma_boot.log that line 498 of the source opens; none when it does
not exist) and the resources listed in dag.sub. -/
structure StopDagState where
  topLog : Option PragmaBootLog
  resources : List StopResource
  deriving DecidableEq, Repr

/-- The ssh-plus-pragma command prefix stopDagPB builds for one resource. -/
def sshPragma (username hostname : String) : String :=
  "ssh " ++ username ++ "@" ++ hostname
    ++ " /opt/python/bin/python /opt/pragma_boot/bin/pragma"

/-- Python percent-s formatting of a getRegexFromFile result: the empty list
renders as its repr, a string renders as itself. -/
def pyFormatRegex : Option String → String
  | none => "[]"
  | some s => s

/-- The pragma shutdown command line stopDagPB constructs, with the cluster
name taken from the given regex capture. -/
def shutdownCmd (username hostname : String) (frontend : Option String) : String :=
  sshPragma username hostname ++ " shutdown " ++ pyFormatRegex frontend

/-- The pragma clean command line stopDagPB constructs. -/
def cleanCmd (username hostname : String) (frontend : Option String) : String :=
  sshPragma username hostname ++ " clean " ++ pyFormatRegex frontend

/-- The per-resource body of stopDagPB, given the already-opened top-level
log.  The frontend cluster name is the Allocated-cluster capture of that
top-level log.  Runs pragma shutdown; on nonzero exit reports the error and
yields false (return False).  Otherwise runs pragma clean; on nonzero exit
yields false.  Returns the success flag together with the command lines
issued, in order. -/
def stopStep (topLog : PragmaBootLog) (r : StopResource) : Bool × List String :=
  let frontend := topLog.allocatedMarker
  let sCmd := shutdownCmd r.username r.hostname frontend
  if r.shutdownExit ≠ 0 then (false, [sCmd])
  else
    let cCmd := cleanCmd r.username r.hostname frontend
    if r.cleanExit ≠ 0 then (false, [sCmd, cCmd])
    else (true, [sCmd, cCmd])

/-- The dag.sub loop of stopDagPB.  Each iteration re-opens the top-level
dagDir/pragma_boot.log via getRegexFromFile, so a missing file raises IOError
on the first resource.  A false step ends the loop with return False; an
exhausted loop returns True. -/
def stopLoop (topLog : Option PragmaBootLog) : List StopResource → Except PyErr Bool
  | [] => .ok true
  | r :: rest =>
    match topLog with
    | none => .error .ioError
    | some tl =>
      if (stopStep tl r).1 then stopLoop topLog rest else .ok false

/-- stopDagPB over the modelled reservation state. -/
def stopDagPB (st : StopDagState) : Except PyErr Bool :=
  stopLoop st.topLog st.resources

/-- The sequence of status names the Running-and-expired dispatch branch of
the main loop posts to the store: it always posts stopping first, then posts
created exactly when stopDagPB returns True.  An exception from stopDagPB
propagates, so no further status is posted in that case either. -/
def runningExpiredWrites (st : StopDagState) : List String :=
  "stopping" :: (match stopDagPB st with
    | .ok true => ["created"]
    | _ => [])

/-- One line of a vc<id>.vmconf file as the descriptor generator writes it
and startDagPB parses it: the flag name without its leading dashes and the
text after the equals sign to the end of the line.  The version-1 regex
captures ("--" ++ key) and the full value text; the version-2 regex captures
key and the first whitespace-delimited token of the value. -/
structure VmconfLine where
  key : String
  value : String
  deriving DecidableEq, Repr

/-- The first whitespace-delimited token of a vmconf value, the version-2
regex capture. -/
def vmconfFirstTok (s : String) : String :=
  ((pySplit s " ").filter (fun t => t ≠ "")).headD ""

/-- Python dict lookup over the args dict startDagPB builds for version 2:
each matching line assigns key to the first token of its value, later lines
overwriting earlier ones; a missing key raises KeyError. -/
def vmconfDict (vmconf : List VmconfLine) (k : String) : Except PyErr String :=
  match (vmconf.filter (fun l => l.key = k)).getLast? with
  | some l => .ok (vmconfFirstTok l.value)
  | none => .error .keyError

/-- The state of one resource as startDagPB reads it from the vc<id>.sub
descriptor (Machine, username, pragma_boot_version, var_run) and the
vc<id>.vmconf parameter file. -/
structure LaunchResource where
  hostname : String
  username : String
  pragma_boot_version : String
  var_run : String
  vmconf : List VmconfLine
  deriving DecidableEq, Repr

/-- The version-1 pragma_boot command line: flag=value pairs from the vmconf
lines, excluding the executable and logfile flags, with the local dag
directory rewritten to its remote equivalent inside each value. -/
def v1Cmdline (dagDir remoteDagDir username hostname : String)
    (vmconf : List VmconfLine) : String :=
  let args := vmconf.foldl (fun args line =>
    if line.key = "executable" ∨ line.key = "logfile" then args
    else args ++ " --" ++ line.key ++ "=" ++ (line.value.replace dagDir remoteDagDir)) ""
  "ssh -f " ++ username ++ "@" ++ hostname ++ " \x27cd " ++ remoteDagDir
    ++ "; /opt/pragma_boot/bin/pragma_boot " ++ args ++ "\x27 >& " ++ dagDir ++ "/ssh.out"

/-- The version-2 pragma boot command line: positional vcname and cpu count
plus key, loglevel and logfile flags.  Note the remote cd target is the
local dagDir, exactly as in the source. -/
def v2Cmdline (dagDir username hostname vcname numCpus key logfile : String) : String :=
  "ssh -f " ++ username ++ "@" ++ hostname ++ " \x27cd " ++ dagDir
    ++ "; /opt/python/bin/python /opt/pragma_boot/bin/pragma boot " ++ vcname
    ++ " " ++ numCpus ++ " key=" ++ key ++ " loglevel=DEBUG logfile=" ++ logfile
    ++ "\x27 >& " ++ dagDir ++ "/ssh.out"

/-- The per-resource body of startDagPB, reduced to the provisioning command
it constructs.  (Writing the hostname marker file and the staging of the
descriptor tree to a remote host are effect-only and carry no data the
claims depend on.)  For pragma_boot_version 1 the version-1 command line is
built from the vmconf lines; for version 2 the args dict is built, its key
entry rewritten to the remote dag directory, and the version-2 command line
is formed; for any other version the script logs an unknown-version error
and calls sys.exit(1), so no command line is constructed or invoked. -/
def resourceLaunch (dagDir refNumber : String) (r : LaunchResource) :
    Except PyErr String :=
  let remoteDagDir := r.var_run ++ "/dag-" ++ refNumber
  if r.pragma_boot_version = "1" then
    .ok (v1Cmdline dagDir remoteDagDir r.username r.hostname r.vmconf)
  else if r.pragma_boot_version = "2" then
    match vmconfDict r.vmconf "key" with
    | .error e => .error e
    | .ok key0 =>
      let key := key0.replace dagDir remoteDagDir
      match vmconfDict r.vmconf "vcname", vmconfDict r.vmconf "num_cpus",
            vmconfDict r.vmconf "logfile" with
      | .ok vcname, .ok ncpus, .ok logfile =>
        .ok (v2Cmdline dagDir r.username r.hostname vcname ncpus key logfile)
      | .error e, _, _ => .error e
      | .ok _, .error e, _ => .error e
      | .ok _, .ok _, .error e => .error e
  else
    .error (.systemExit 1)

/-- The command a resourceLaunch result invokes: none when the resource hit
an exception or the unknown-version sys.exit, so nothing was run. -/
def invokedCmdline : Except PyErr String → Option String
  | .ok c => some c
  | .error _ => none

/-- startDagPB over the resources listed in dag.sub: the list of provisioning
command lines invoked, or the exception that aborted the run (sys.exit on an
unknown version aborts before any later resource is processed). -/
def startDagPB (dagDir refNumber : String) : List LaunchResource → Except PyErr (List String)
  | [] => .ok []
  | r :: rest =>
    match resourceLaunch dagDir refNumber r with
    | .error e => .error e
    | .ok cmd =>
      match startDagPB dagDir refNumber rest with
      | .error e => .error e
      | .ok cmds => .ok (cmd :: cmds)

/-- Whether an Except value is a success. -/
def isOkE {α : Type} : Except PyErr α → Bool
  | .ok _ => true
  | .error _ => false

/-- One entry of the customAttributes list of a reservation as returned by
the store: id and value are none when the corresponding JSON key is absent
(updateStatus tests key presence before flattening); label is the attribute
name used elsewhere by convertAttributesToDict. -/
structure BookedAttr where
  id : Option String
  value : Option String
  label : String
  deriving DecidableEq, Repr

/-- One entry of the resources list of a reservation as returned by the
store. -/
structure BookedResource where
  id : String
  deriving DecidableEq, Repr

/-- The reservation JSON body updateStatus receives from a GET request,
restricted to the fields the function touches or forwards. -/
structure Reservation where
  referenceNumber : String
  customAttributes : List BookedAttr
  resources : List BookedResource
  statusId : String
  description : String
  deriving DecidableEq, Repr

/-- A flattened custom attribute as updateStatus posts it. -/
structure FlatAttr where
  attributeId : String
  attributeValue : String
  deriving DecidableEq, Repr

/-- The reshaped body updateStatus posts back to the store. -/
structure UpdatePayload where
  referenceNumber : String
  customAttributes : List FlatAttr
  resources : List String
  statusId : String
  description : String
  deriving DecidableEq, Repr

/-- The attribute-flattening loop of updateStatus: an attribute carrying both
an id and a value key becomes an attributeId/attributeValue pair; any other
attribute is reported as bad and dropped from the payload. -/
def reformatAttrs : List BookedAttr → List FlatAttr
  | [] => []
  | a :: rest =>
    match a.id, a.value with
    | some i, some v => ⟨i, v⟩ :: reformatAttrs rest
    | _, _ => reformatAttrs rest

/-- Models json.loads(json.dumps(data)): serializing the reservation JSON
tree and parsing it back yields an equal value held in freshly allocated
objects, so the field assignments updateStatus performs on the copy leave
the object the caller passed in untouched.  On values the round trip is the
identity. -/
def jsonRoundTrip (data : Reservation) : Reservation := data

/-- The acknowledgement message the store sends on a successful update. -/
def updateAckMessage : String := "The reservation was updated"

/-- updateStatus.  statusMap models config.get of the Status section (the
configured status-name-to-id mapping); serverMessage is the message field of
the response the store returns to the POST.  The result is a triple of the
reservation object as the caller sees it after the call, the payload posted,
and the returned boolean, which is true exactly when the server message
equals the acknowledgement string. -/
def updateStatus (data : Reservation) (status : String)
    (statusMap : String → String) (serverMessage : String) :
    Reservation × UpdatePayload × Bool :=
  let updateData := jsonRoundTrip data
  let reformattedAttributes := reformatAttrs updateData.customAttributes
  let reformattedResources := updateData.resources.map (fun r => r.id)
  let payload : UpdatePayload :=
    { referenceNumber := updateData.referenceNumber
      customAttributes := reformattedAttributes
      resources := reformattedResources
      statusId := statusMap status
      description := updateData.description }
  (data, payload, serverMessage == updateAckMessage)

/-- One reservation entry as the store returns it from the list call: a
reservation spanning several resources is returned once per resource, the
entries sharing a referenceNumber and differing in resourceId. -/
structure BookedEntry where
  referenceNumber : String
  resourceId : String
  deriving DecidableEq, Repr

/-- One Python dict assignment bookedReservations[k] = v: when the key is
already present its value is replaced in place (insertion order is kept),
otherwise the pair is appended. -/
def bookedDictInsert (m : List (String × BookedEntry)) (k : String) (v : BookedEntry) :
    List (String × BookedEntry) :=
  if m.any (fun p => p.1 = k) then
    m.map (fun p => if p.1 = k then (p.1, v) else p)
  else m ++ [(k, v)]

/-- The deduplication loop of the main script: every store-returned entry is
assigned into the bookedReservations dict keyed by its reference number. -/
def bookedReservationsOf (entries : List BookedEntry) : List (String × BookedEntry) :=
  entries.foldl (fun m e => bookedDictInsert m e.referenceNumber e) []

/-- The sequence of logical reservations the per-reservation loop of the
main script iterates over: the values of the bookedReservations dict. -/
def processedReservations (entries : List BookedEntry) : List BookedEntry :=
  (bookedReservationsOf entries).map (fun p => p.2)

/-- Whether a resource line, as processed by the dag.sub loop of
isDagRunning, ended as skipped (continue) or as probed-and-active; false for
an early return, a probe classifying the cluster inactive, or an unhandled
exception. -/
def stepOk (r : VcResource) : Bool :=
  match (resourceStep r).1 with
  | .ok .skipped => true
  | .ok (.probed b _ _) => b
  | _ => false

/-- The inactive counter never decreases along the dag.sub loop. -/
theorem dagLoop_inactive_le (rs : List VcResource) :
    ∀ acc acc2, dagLoop rs acc = .ok (some acc2) →
      acc.inactiveCount ≤ acc2.inactiveCount := by
  induction rs with
  | nil =>
    intro acc acc2 h
    simp only [dagLoop, Except.ok.injEq, Option.some.injEq] at h
    exact h ▸ Nat.le_refl _
  | cons r rest ih =>
    intro acc acc2 h
    unfold dagLoop at h
    split at h
    · exact absurd h (by simp)
    · exact absurd h (by simp)
    · exact ih _ _ h
    · exact Nat.le_trans (Nat.le_add_right _ _) (ih _ _ h)

/-- If the dag.sub loop runs to completion with an empty inactive list, every
resource line was skipped or probed active. -/
theorem dagLoop_ready_steps (rs : List VcResource) :
    ∀ acc acc2, dagLoop rs acc = .ok (some acc2) → acc2.inactiveCount = 0 →
      ∀ r ∈ rs, stepOk r = true := by
  induction rs with
  | nil =>
    intro _ _ _ _ r hr
    exact absurd hr (List.not_mem_nil r)
  | cons r0 rest ih =>
    intro acc acc2 h h0 r hr
    unfold dagLoop at h
    split at h
    · exact absurd h (by simp)
    · exact absurd h (by simp)
    · rcases List.mem_cons.mp hr with rfl | hr2
      · rename_i hs
        simp [stepOk, hs]
      · exact ih _ _ h h0 r hr2
    · rename_i b info fqdn hs
      have hle := dagLoop_inactive_le rest _ _ h
      have hb : b = true := by
        cases b
        · exfalso
          simp only [Bool.false_eq_true, if_false] at hle
          omega
        · rfl
      rcases List.mem_cons.mp hr with rfl | hr2
      · simp [stepOk, hs, hb]
      · exact ih _ _ h h0 r hr2

/-- C1 (amended): the Ready result of the readiness detector requires every
resource listed in dag.sub to have been either skipped by the continue
statement or classified active by its liveness probe: Ready never coexists
with a failed probe, a missing address, or an unhandled extraction
exception.  (The original claim also asserted that incomplete extraction
always yields Pending; the counterexample shows a missing CPU-count or
node-list marker raises an unhandled exception instead.) -/
theorem isDagRunning_ready_requires_probe_success (now : String)
    (rs : List VcResource) (s : String) (r : VcResource)
    (hready : isDagRunning now rs = .ok (some s)) (hr : r ∈ rs) :
    stepOk r = true := by
  unfold isDagRunning at hready
  split at hready
  · exact absurd hready (by simp)
  · exact absurd hready (by simp)
  · rename_i acc hloop
    split at hready
    · rename_i h0
      exact dagLoop_ready_steps rs _ _ hloop h0 r hr
    · exact absurd hready (by simp)

/-- Fixture: the cached cluster_info record of a ready resource. -/
def ciReadyW : ClusterInfoFile := ⟨some "wc.example.org", some "n1 n2"⟩

/-- Fixture: a resource with a cached cluster_info record, pragma_boot
version 1 and a successful ping probe. -/
def rReadyW : VcResource :=
  ⟨"hostw.example.org", "uw", "/var/run/pcc", "1", some ciReadyW, none, 0, 0⟩

/-- Witness for C1: at a concrete ready reservation the theorem applies, the
single resource having been probed active. -/
theorem isDagRunning_ready_requires_probe_success_witness : stepOk rReadyW = true :=
  isDagRunning_ready_requires_probe_success "2016-01-01 12:00:00" [rReadyW]
    (startedEmail "2016-01-01 12:00:00"
      "\n\nFrontend: wc.example.org\nNumber of compute nodes: 2" "wc.example.org")
    rReadyW rfl (List.mem_cons_self rReadyW [])

/-- Fixture: a log whose address comes from the public-IP fallback but which
carries neither CPU-count marker. -/
def logC1cex : PragmaBootLog := ⟨none, some "c1.example.org", none, none, none, none, none⟩

/-- Fixture: a fresh (uncached) resource reading logC1cex. -/
def rC1cex : VcResource := ⟨"host1", "u1", "/var/run/pcc", "1", none, some logC1cex, 0, 0⟩

/-- C1 counterexample: a resource whose log yields an address but whose
CPU-count extraction is incomplete makes the detector raise an unhandled
TypeError, so the result is an aborted run, not the Pending result the claim
asserts for incomplete extraction. -/
theorem isDagRunning_incomplete_extraction_not_pending_cex :
    isDagRunning "2016-01-01 12:00:00" [rC1cex] = .error .typeError ∧
    isDagRunning "2016-01-01 12:00:00" [rC1cex] ≠ .ok none := by
  refine ⟨rfl, ?_⟩
  intro h
  exact Except.noConfusion ((rfl :
    isDagRunning "2016-01-01 12:00:00" [rC1cex] = .error .typeError).symm.trans h)

/-- Fixture: a log with an fqdn= address and neither CPU-count marker. -/
def logC10 : PragmaBootLog := ⟨some "c10.example.org", none, none, none, none, none, none⟩

/-- Fixture: a fresh (uncached) resource reading logC10. -/
def rC10 : VcResource := ⟨"host10", "u10", "/var/run/pcc", "2", none, some logC10, 0, 0⟩

/-- C10: for a resource log that contains an address but matches neither the
numcpus= marker nor the Requesting-N-CPUs fallback, the readiness detector
raises an unhandled TypeError (int applied to the empty regex result)
instead of returning Pending, aborting the whole run. -/
theorem isDagRunning_missing_numcpus_raises :
    logC10.fqdnMarker = some "c10.example.org" ∧
    logC10.numcpusMarker = none ∧ logC10.requestingMarker = none ∧
    isDagRunning "2016-01-01 12:00:00" [rC10] = .error .typeError :=
  ⟨rfl, rfl, rfl, rfl⟩

/-- The per-resource effects of the cached branch: no scp, no cluster_info
write, in both its AttributeError path and its probe path. -/
theorem resourceStep_cached_effects (r : VcResource) (ci : ClusterInfoFile)
    (h : r.clusterInfo = some ci) : (resourceStep r).2 = ⟨false, none⟩ := by
  unfold resourceStep
  rw [h]
  cases hf : ci.fqdnField <;> simp [hf]

/-- C2: for a resource whose cluster_info file exists, the readiness
detector reads the cached record directly: the scp fetch of the remote log
is not issued, writeStringToFile is never reached for cluster_info, and
applying the file-system effects of the step leaves the resource state, in
particular the cached address and node list, unchanged; hence repeated
invocations observe the same cached record. -/
theorem resourceStep_cached_no_refetch (r : VcResource) (ci : ClusterInfoFile)
    (h : r.clusterInfo = some ci) :
    (resourceStep r).2.scpIssued = false ∧
    (resourceStep r).2.clusterInfoWrite = none ∧
    applyStepEffects r = r := by
  have heff := resourceStep_cached_effects r ci h
  refine ⟨by rw [heff], by rw [heff], ?_⟩
  unfold applyStepEffects
  rw [heff]

/-- Fixture: a cached cluster_info record for the C2 witness. -/
def ciC2w : ClusterInfoFile := ⟨some "cc.example.org", some "m1 m2 m3"⟩

/-- Fixture: a version-2 resource with a cached cluster_info record and a
local log for the liveness probe. -/
def rC2w : VcResource :=
  ⟨"hostc.example.org", "uc", "/var/run/pcc", "2", some ciC2w,
   some ⟨none, none, none, none, none, none, some "cc"⟩, 0, 0⟩

/-- Witness for C2 at a concrete cached resource. -/
theorem resourceStep_cached_no_refetch_witness :
    (resourceStep rC2w).2.scpIssued = false ∧
    (resourceStep rC2w).2.clusterInfoWrite = none ∧
    applyStepEffects rC2w = rC2w :=
  resourceStep_cached_no_refetch rC2w ciC2w rfl

/-- The success flag of one teardown step is the conjunction of both exit
statuses being zero. -/
theorem stopStep_fst (tl : PragmaBootLog) (r : StopResource) :
    (stopStep tl r).1 = (decide (r.shutdownExit = 0) && decide (r.cleanExit = 0)) := by
  unfold stopStep
  by_cases h1 : r.shutdownExit = 0 <;> by_cases h2 : r.cleanExit = 0 <;> simp [h1, h2]

/-- stopDagPB returns True only when every resource passed both the shutdown
and the clean sub-command. -/
theorem stopLoop_true_all_pass (topLog : Option PragmaBootLog) :
    ∀ rs : List StopResource, stopLoop topLog rs = .ok true →
      ∀ r ∈ rs, r.shutdownExit = 0 ∧ r.cleanExit = 0 := by
  intro rs
  induction rs with
  | nil =>
    intro _ r hr
    exact absurd hr (List.not_mem_nil r)
  | cons r0 rest ih =>
    intro h r hr
    unfold stopLoop at h
    split at h
    · exact absurd h (by simp)
    · rename_i tl heq
      split at h
      · rename_i hpass
        rw [stopStep_fst] at hpass
        rcases List.mem_cons.mp hr with rfl | hr2
        · constructor
          · exact of_decide_eq_true (Bool.and_elim_left hpass)
          · exact of_decide_eq_true (Bool.and_elim_right hpass)
        · exact ih h r hr2
      · exact absurd h (by simp)

/-- C3: if the remote shutdown or clean sub-command exits non-zero for any
resource, stopDagPB does not return True, and the Running-and-expired branch
of the main loop therefore posts only the stopping status and never the
created status: the last recorded status for the cycle is Stopping. -/
theorem stopDagPB_failure_keeps_stopping (st : StopDagState) (r : StopResource)
    (hr : r ∈ st.resources) (hf : r.shutdownExit ≠ 0 ∨ r.cleanExit ≠ 0) :
    stopDagPB st ≠ .ok true ∧ runningExpiredWrites st = ["stopping"] := by
  have hne : stopDagPB st ≠ .ok true := by
    intro h
    have hall := stopLoop_true_all_pass st.topLog st.resources h r hr
    rcases hf with hf | hf
    · exact hf hall.1
    · exact hf hall.2
  refine ⟨hne, ?_⟩
  unfold runningExpiredWrites
  split
  · rename_i h
    exact absurd h hne
  · rfl

/-- Fixture: a teardown state whose single resource fails the shutdown
sub-command. -/
def stC3w : StopDagState :=
  ⟨some ⟨none, none, none, none, none, none, some "vc3"⟩,
   [⟨"host3.example.org", "u3", none, 1, 0⟩]⟩

/-- Witness for C3 at a concrete failing teardown. -/
theorem stopDagPB_failure_keeps_stopping_witness :
    stopDagPB stC3w ≠ .ok true ∧ runningExpiredWrites stC3w = ["stopping"] :=
  stopDagPB_failure_keeps_stopping stC3w ⟨"host3.example.org", "u3", none, 1, 0⟩
    (List.mem_cons_self _ [])
    (Or.inl (by decide))

/-- Fixture: a top-level dagDir/pragma_boot.log naming clusterA. -/
def topLogC4 : PragmaBootLog := ⟨none, none, none, none, none, none, some "clusterA"⟩

/-- Fixture: a per-resource vc-directory pragma_boot.log naming clusterB. -/
def vcLogC4 : PragmaBootLog := ⟨none, none, none, none, none, none, some "clusterB"⟩

/-- Fixture: a resource whose own log names clusterB. -/
def rC4 : StopResource := ⟨"host4", "u4", some vcLogC4, 0, 0⟩

/-- C4 counterexample: the teardown step addresses the cluster named by the
top-level dagDir/pragma_boot.log (clusterA), even though the log in the
resource sub-directory names clusterB, refuting the claim that the cluster
name is read from files under the resource sub-directory. -/
theorem stopDagPB_cluster_name_top_level_cex :
    rC4.vcLog = some vcLogC4 ∧ vcLogC4.allocatedMarker = some "clusterB" ∧
    topLogC4.allocatedMarker = some "clusterA" ∧
    (stopStep topLogC4 rC4).2 =
      ["ssh u4@host4 /opt/python/bin/python /opt/pragma_boot/bin/pragma shutdown clusterA",
       "ssh u4@host4 /opt/python/bin/python /opt/pragma_boot/bin/pragma clean clusterA"] ∧
    "ssh u4@host4 /opt/python/bin/python /opt/pragma_boot/bin/pragma shutdown clusterB"
      ∉ (stopStep topLogC4 rC4).2 := by
  refine ⟨rfl, rfl, rfl, rfl, ?_⟩
  decide

/-- C4 (amended): the cluster name stopDagPB passes to the shutdown and
clean sub-commands is the Allocated-cluster capture of the pragma_boot.log
at the top level of the dag directory; the commands are independent of the
per-resource pragma_boot.log, while hostname and username do come from the
per-resource descriptor file. -/
theorem stopDagPB_cluster_name_from_top_log (tl : PragmaBootLog) (r : StopResource)
    (l2 : Option PragmaBootLog) :
    stopStep tl { r with vcLog := l2 } = stopStep tl r ∧
    (stopStep tl r).2.head? = some (shutdownCmd r.username r.hostname tl.allocatedMarker) := by
  unfold stopStep
  by_cases h1 : r.shutdownExit = 0 <;> by_cases h2 : r.cleanExit = 0 <;> simp [h1, h2]

/-- A resource whose launch aborts with sys.exit makes the whole startDagPB
call abort, whichever position it occupies. -/
theorem startDagPB_not_ok_of_mem (dagDir refN : String) :
    ∀ rs : List LaunchResource, ∀ r ∈ rs,
      resourceLaunch dagDir refN r = .error (.systemExit 1) →
      isOkE (startDagPB dagDir refN rs) = false := by
  intro rs
  induction rs with
  | nil =>
    intro r hr _
    exact absurd hr (List.not_mem_nil r)
  | cons r0 rest ih =>
    intro r hr hfatal
    unfold startDagPB
    cases h0 : resourceLaunch dagDir refN r0 with
    | error e => rfl
    | ok cmd =>
      rcases List.mem_cons.mp hr with rfl | hr2
      · rw [h0] at hfatal
        exact absurd hfatal (by simp)
      · have hrest := ih r hr2 hfatal
        cases hrest2 : startDagPB dagDir refN rest with
        | error e => rfl
        | ok cmds =>
          rw [hrest2] at hrest
          exact absurd hrest (by simp [isOkE])

/-- C5: a resource whose pragma_boot_version attribute is neither 1 nor 2 is
a fatal configuration error for startDagPB: the script logs the unknown
version and calls sys.exit(1), so no provisioning command line is
constructed or invoked for that resource, and the whole launch call aborts
rather than succeed. -/
theorem startDagPB_unknown_version_fatal (dagDir refN : String)
    (r : LaunchResource) (rs : List LaunchResource)
    (h1 : r.pragma_boot_version ≠ "1") (h2 : r.pragma_boot_version ≠ "2")
    (hr : r ∈ rs) :
    resourceLaunch dagDir refN r = .error (.systemExit 1) ∧
    invokedCmdline (resourceLaunch dagDir refN r) = none ∧
    isOkE (startDagPB dagDir refN rs) = false := by
  have hfatal : resourceLaunch dagDir refN r = .error (.systemExit 1) := by
    unfold resourceLaunch
    simp [h1, h2]
  exact ⟨hfatal, by rw [hfatal]; rfl,
    startDagPB_not_ok_of_mem dagDir refN rs r hr hfatal⟩

/-- Fixture: a resource whose descriptor names pragma_boot version 3. -/
def rC5w : LaunchResource :=
  ⟨"host5.example.org", "u5", "3", "/var/run/pcc",
   [⟨"executable", "pragma_boot"⟩, ⟨"key", "/tmp/dag-77/public_key"⟩,
    ⟨"num_cpus", "8"⟩, ⟨"vcname", "vc5"⟩, ⟨"logfile", "/tmp/dag-77/pragma_boot.log"⟩]⟩

/-- Witness for C5 at a concrete version-3 resource. -/
theorem startDagPB_unknown_version_fatal_witness :
    resourceLaunch "/tmp/dag-77" "77" rC5w = .error (.systemExit 1) ∧
    invokedCmdline (resourceLaunch "/tmp/dag-77" "77" rC5w) = none ∧
    isOkE (startDagPB "/tmp/dag-77" "77" [rC5w]) = false :=
  startDagPB_unknown_version_fatal "/tmp/dag-77" "77" rC5w [rC5w]
    (by decide) (by decide) (List.mem_cons_self _ [])

/-- Fixture: a log with an address, a positive CPU count and no node-list
marker of either form. -/
def logC8cex : PragmaBootLog :=
  ⟨some "c8.example.org", none, some "2", none, none, none, some "c8"⟩

/-- Fixture: a fresh (uncached) resource reading logC8cex. -/
def rC8cex : VcResource := ⟨"host8", "u8", "/var/run/pcc", "2", none, some logC8cex, 0, 0⟩

/-- C8 counterexample: with the address known and a positive CPU count but
neither node-list search matching, the detector raises an unhandled
AttributeError (split applied to the empty regex result) instead of
reporting Pending; cluster_info is indeed left unwritten, but only because
the whole run aborts. -/
theorem isDagRunning_missing_cnodes_not_pending_cex :
    logC8cex.cnodesMarker = none ∧ logC8cex.allocatedNodesMarker = none ∧
    numcpusResult logC8cex = .ok 2 ∧
    isDagRunning "2016-01-01 12:00:00" [rC8cex] = .error .attributeError ∧
    isDagRunning "2016-01-01 12:00:00" [rC8cex] ≠ .ok none ∧
    (resourceStep rC8cex).2.clusterInfoWrite = none := by
  refine ⟨rfl, rfl, rfl, rfl, ?_, rfl⟩
  intro h
  exact Except.noConfusion ((rfl :
    isDagRunning "2016-01-01 12:00:00" [rC8cex] = .error .attributeError).symm.trans h)

/-- C8 (amended): for a resource whose log yields an address but no
compute-node list (neither the structured cnodes= marker nor the free-text
fallback matches, with a positive CPU count), the detector raises an
unhandled AttributeError instead of returning Pending, because the dead
continue branch guarding that case is unreachable; the cluster_info file is
left unwritten, so a later cycle would retry extraction. -/
theorem resourceStep_missing_cnodes_raises (r : VcResource) (log : PragmaBootLog)
    (n : Int) (h1 : r.clusterInfo = none) (h2 : r.log = some log)
    (h3 : pyTruthy (if pyTruthy log.fqdnMarker then log.fqdnMarker else log.publicIPMarker) = true)
    (h4 : numcpusResult log = .ok n) (h5 : 0 < n)
    (h6 : log.cnodesMarker = none) (h7 : log.allocatedNodesMarker = none) :
    (resourceStep r).1 = .error .attributeError ∧
    (resourceStep r).2.clusterInfoWrite = none := by
  have hc : cnodesResult log = .error .attributeError := by
    unfold cnodesResult
    rw [h6, h7]
  unfold resourceStep
  rw [h1, h2]
  simp only [h3, if_true, h4, hc, h5, if_pos]
  exact ⟨trivial, trivial⟩

/-- Fixture: a second address-known, cpu-count-known, node-list-missing log
for the C8 witness. -/
def logC8w : PragmaBootLog :=
  ⟨some "w8.example.org", none, some "3", none, none, none, some "w8"⟩

/-- Fixture: a fresh (uncached) resource reading logC8w. -/
def rC8w : VcResource := ⟨"host8w", "u8w", "/var/run/pcc", "1", none, some logC8w, 0, 0⟩

/-- Witness for C8 at a concrete node-list-missing resource. -/
theorem resourceStep_missing_cnodes_raises_witness :
    (resourceStep rC8w).1 = .error .attributeError ∧
    (resourceStep rC8w).2.clusterInfoWrite = none :=
  resourceStep_missing_cnodes_raises rC8w logC8w 3 rfl rfl rfl rfl (by decide) rfl rfl

/-- The keys of the bookedReservations dict. -/
def dictKeys (m : List (String × BookedEntry)) : List String := m.map Prod.fst

/-- The number of dict entries carrying a given key. -/
def countKey : List (String × BookedEntry) → String → Nat
  | [], _ => 0
  | p :: m, x => (if p.1 = x then 1 else 0) + countKey m x

/-- The number of entries of a list carrying a given reference number. -/
def countRef : List BookedEntry → String → Nat
  | [], _ => 0
  | e :: l, x => (if e.referenceNumber = x then 1 else 0) + countRef l x

/-- Replacing the value stored under a key changes no key. -/
theorem dictKeys_replace (m : List (String × BookedEntry)) (k : String) (v : BookedEntry) :
    dictKeys (m.map (fun p => if p.1 = k then (p.1, v) else p)) = dictKeys m := by
  unfold dictKeys
  induction m with
  | nil => rfl
  | cons p m ih =>
    simp only [List.map_cons]
    congr 1
    by_cases h : p.1 = k <;> simp [h]

/-- Replacing the value stored under a key changes no key count. -/
theorem countKey_replace (m : List (String × BookedEntry)) (k : String) (v : BookedEntry)
    (x : String) :
    countKey (m.map (fun p => if p.1 = k then (p.1, v) else p)) x = countKey m x := by
  induction m with
  | nil => rfl
  | cons p m ih =>
    by_cases h : p.1 = k <;> simp [countKey, h, ih]

/-- A key is in the dict exactly when some entry carries it. -/
theorem dict_any_iff (m : List (String × BookedEntry)) (k : String) :
    (m.any (fun p => p.1 = k) = true) ↔ k ∈ dictKeys m := by
  unfold dictKeys
  constructor
  · intro h
    rcases List.any_eq_true.mp h with ⟨p, hp, he⟩
    exact List.mem_map.mpr ⟨p, hp, of_decide_eq_true he⟩
  · intro h
    rcases List.mem_map.mp h with ⟨p, hp, he⟩
    exact List.any_eq_true.mpr ⟨p, hp, decide_eq_true he⟩

/-- The invariant of the deduplication dict: each key occurs at most once
(its count is one exactly when it is present), and every stored entry
carries its key as reference number. -/
def DictInv (m : List (String × BookedEntry)) : Prop :=
  (∀ x, countKey m x = if x ∈ dictKeys m then 1 else 0) ∧
  (∀ p ∈ m, p.2.referenceNumber = p.1)

/-- One dict assignment preserves the invariant. -/
theorem bookedDictInsert_inv (m : List (String × BookedEntry)) (k : String)
    (v : BookedEntry) (hv : v.referenceNumber = k) (hm : DictInv m) :
    DictInv (bookedDictInsert m k v) := by
  obtain ⟨hcount, hval⟩ := hm
  unfold bookedDictInsert
  by_cases hk : m.any (fun p => p.1 = k) = true
  · rw [if_pos hk]
    constructor
    · intro x
      rw [countKey_replace, dictKeys_replace]
      exact hcount x
    · intro p hp
      rcases List.mem_map.mp hp with ⟨q, hq, hqe⟩
      by_cases h : q.1 = k
      · rw [if_pos h] at hqe
        rw [← hqe]
        simpa [hv] using h.symm
      · rw [if_neg h] at hqe
        exact hqe ▸ hval q hq
  · rw [if_neg hk]
    have hknot : k ∉ dictKeys m := fun hmem => hk ((dict_any_iff m k).mpr hmem)
    constructor
    · intro x
      have happ : countKey (m ++ [(k, v)]) x = countKey m x + (if k = x then 1 else 0) := by
        have hgen : ∀ mm : List (String × BookedEntry),
            countKey (mm ++ [(k, v)]) x = countKey mm x + (if k = x then 1 else 0) := by
          intro mm
          induction mm with
          | nil => simp only [countKey, List.nil_append]; omega
          | cons p mm ih2 =>
            simp only [List.cons_append, countKey, List.append_eq]
            rw [ih2]
            omega
        exact hgen m
      have hkeys : dictKeys (m ++ [(k, v)]) = dictKeys m ++ [k] := by
        simp [dictKeys]
      rw [happ, hkeys, hcount x]
      by_cases hx : x = k
      · subst hx
        simp [hknot]
      · simp [hx, Ne.symm hx]
    · intro p hp
      rcases List.mem_append.mp hp with hp2 | hp2
      · exact hval p hp2
      · rw [List.mem_singleton.mp hp2]
        exact hv

/-- One dict assignment adds exactly its key to the key set. -/
theorem bookedDictInsert_keys_mem (m : List (String × BookedEntry)) (k : String)
    (v : BookedEntry) (x : String) :
    x ∈ dictKeys (bookedDictInsert m k v) ↔ x ∈ dictKeys m ∨ x = k := by
  unfold bookedDictInsert
  by_cases hk : m.any (fun p => p.1 = k) = true
  · rw [if_pos hk, dictKeys_replace]
    constructor
    · exact Or.inl
    · rintro (h | rfl)
      · exact h
      · exact (dict_any_iff m x).mp hk
  · rw [if_neg hk]
    have : dictKeys (m ++ [(k, v)]) = dictKeys m ++ [k] := by simp [dictKeys]
    rw [this]
    simp

/-- The deduplication fold preserves the invariant and its key set is the
set of reference numbers seen so far. -/
theorem bookedReservations_fold_inv (entries : List BookedEntry) :
    ∀ m, DictInv m →
      DictInv (entries.foldl (fun m e => bookedDictInsert m e.referenceNumber e) m) ∧
      (∀ x, x ∈ dictKeys (entries.foldl (fun m e => bookedDictInsert m e.referenceNumber e) m) ↔
        x ∈ dictKeys m ∨ x ∈ entries.map (fun e => e.referenceNumber)) := by
  induction entries with
  | nil =>
    intro m hm
    exact ⟨hm, fun x => by simp⟩
  | cons e rest ih =>
    intro m hm
    have hstep := bookedDictInsert_inv m e.referenceNumber e rfl hm
    obtain ⟨hinv, hkeys⟩ := ih (bookedDictInsert m e.referenceNumber e) hstep
    rw [List.foldl_cons]
    refine ⟨hinv, fun x => ?_⟩
    rw [hkeys x, bookedDictInsert_keys_mem]
    simp only [List.map_cons, List.mem_cons, or_assoc]

/-- Counting values by reference number equals counting keys, when every
entry carries its key as reference number. -/
theorem countRef_values (m : List (String × BookedEntry))
    (hval : ∀ p ∈ m, p.2.referenceNumber = p.1) (x : String) :
    countRef (m.map (fun p => p.2)) x = countKey m x := by
  induction m with
  | nil => rfl
  | cons p m ih =>
    have hp := hval p (List.mem_cons_self p m)
    simp only [List.map_cons, countRef, countKey, hp]
    rw [ih (fun q hq => hval q (List.mem_cons_of_mem p hq))]

/-- C6: for every list of store-returned reservation entries and every
reference number, the per-reservation loop of the main script processes
exactly one logical reservation carrying that reference number when it
occurs among the entries, and none otherwise: N entries sharing a reference
number collapse to one. -/
theorem bookedReservations_dedup_unique (entries : List BookedEntry) (x : String) :
    countRef (processedReservations entries) x =
      if x ∈ entries.map (fun e => e.referenceNumber) then 1 else 0 := by
  have hbase : DictInv [] := ⟨fun x => rfl, fun p hp => absurd hp (List.not_mem_nil p)⟩
  obtain ⟨⟨hcount, hval⟩, hkeys⟩ := bookedReservations_fold_inv entries [] hbase
  have hmem : x ∈ dictKeys (List.foldl (fun m e => bookedDictInsert m e.referenceNumber e) [] entries)
      ↔ x ∈ entries.map (fun e => e.referenceNumber) := by
    rw [hkeys x]
    simp [dictKeys]
  unfold processedReservations bookedReservationsOf
  rw [countRef_values _ hval, hcount x]
  by_cases hx : x ∈ entries.map (fun e => e.referenceNumber)
  · rw [if_pos hx, if_pos (hmem.mpr hx)]
  · rw [if_neg hx, if_neg (fun hm2 => hx (hmem.mp hm2))]

/-- When every attribute carries both keys, the flattening loop is exactly
the per-attribute reshaping map. -/
theorem reformatAttrs_map (l : List BookedAttr)
    (h : ∀ a ∈ l, a.id.isSome ∧ a.value.isSome) :
    reformatAttrs l = l.map (fun a => ⟨a.id.getD "", a.value.getD ""⟩) := by
  induction l with
  | nil => rfl
  | cons a l ih =>
    obtain ⟨hid, hv⟩ := h a (List.mem_cons_self a l)
    rcases Option.isSome_iff_exists.mp hid with ⟨i, hi⟩
    rcases Option.isSome_iff_exists.mp hv with ⟨v, hv2⟩
    unfold reformatAttrs
    rw [hi, hv2]
    simp only [List.map_cons, hi, hv2, Option.getD_some]
    exact congrArg _ (ih (fun b hb => h b (List.mem_cons_of_mem a hb)))

/-- C7: for a reservation whose custom attributes each carry an id and a
value key (the shape the store returns), updateStatus posts a payload whose
custom attributes are flattened to attributeId/attributeValue pairs in
order, whose resources are flattened to the bare resource ids, and whose
statusId is the configured mapping of the target status name; and it returns
True exactly when the server message equals the acknowledgement string. -/
theorem updateStatus_payload_shape (data : Reservation) (status : String)
    (statusMap : String → String) (serverMessage : String)
    (h : ∀ a ∈ data.customAttributes, a.id.isSome ∧ a.value.isSome) :
    (updateStatus data status statusMap serverMessage).2.1.customAttributes
      = data.customAttributes.map (fun a => ⟨a.id.getD "", a.value.getD ""⟩) ∧
    (updateStatus data status statusMap serverMessage).2.1.resources
      = data.resources.map (fun r => r.id) ∧
    (updateStatus data status statusMap serverMessage).2.1.statusId = statusMap status ∧
    ((updateStatus data status statusMap serverMessage).2.2 = true
      ↔ serverMessage = "The reservation was updated") := by
  refine ⟨reformatAttrs_map data.customAttributes h, rfl, rfl, ?_⟩
  show (serverMessage == updateAckMessage) = true ↔ _
  rw [beq_iff_eq]
  exact Iff.rfl

/-- Fixture: a reservation detail record with well-formed attributes. -/
def resC7w : Reservation :=
  ⟨"42",
   [⟨some "9", some "8", "CPUs"⟩, ⟨some "12", some "mycluster", "VC Name"⟩],
   [⟨"5"⟩, ⟨"6"⟩], "1", "my reservation"⟩

/-- Witness for C7 at a concrete reservation and server response. -/
theorem updateStatus_payload_shape_witness :
    (updateStatus resC7w "running" (fun _ => "2") "The reservation was updated").2.1.customAttributes
      = resC7w.customAttributes.map (fun a => ⟨a.id.getD "", a.value.getD ""⟩) ∧
    (updateStatus resC7w "running" (fun _ => "2") "The reservation was updated").2.1.resources
      = resC7w.resources.map (fun r => r.id) ∧
    (updateStatus resC7w "running" (fun _ => "2") "The reservation was updated").2.1.statusId
      = (fun _ : String => "2") "running" ∧
    ((updateStatus resC7w "running" (fun _ => "2") "The reservation was updated").2.2 = true
      ↔ "The reservation was updated" = "The reservation was updated") :=
  updateStatus_payload_shape resC7w "running" (fun _ => "2") "The reservation was updated"
    (by intro a ha; fin_cases ha <;> exact ⟨rfl, rfl⟩)

/-- C9: updateStatus never mutates the reservation object passed by the
caller: the reshaped payload is built on the deep copy produced by the JSON
round trip, so after the call the caller object, including its custom
attributes, resources and description, is exactly what was passed in. -/
theorem updateStatus_preserves_caller_data (data : Reservation) (status : String)
    (statusMap : String → String) (serverMessage : String) :
    (updateStatus data status statusMap serverMessage).1 = data ∧
    (updateStatus data status statusMap serverMessage).1.customAttributes
      = data.customAttributes ∧
    (updateStatus data status statusMap serverMessage).1.resources = data.resources ∧
    (updateStatus data status statusMap serverMessage).1.description = data.description :=
  ⟨rfl, rfl, rfl, rfl⟩
